import Mathlib

/-!
A verification development for the pomodex sandbox orchestrator.

Each Python operation that the properties below talk about is embedded as a
pure Lean function over explicit state.  Calls into external SDKs (Docker,
GCS/IAM, the image registry, websockets) are nondeterministic in the real
system, so each embedded operation takes an oracle describing the outcome of
every external call it performs; DB sessions become explicit lists of rows
that the operation threads through.  Timestamps are integers (seconds).
-/

namespace Pomodex

/-- The `projects` table row (backend/project_service/models/database.py).
`gcs_pfx` embeds the source's workspace-prefix column. -/
structure Project where
  id : String
  user_id : String
  name : String
  status : String
  ssh_public_key : String
  ssh_private_key : Option String
  gcs_pfx : String
  container_id : Option String
  container_name : Option String
  volume_name : Option String
  ssh_host_port : Option Nat
  snapshot_image : Option String
  last_snapshot_at : Option Int
  last_backup_at : Option Int
  last_active_at : Option Int
  last_connection_at : Option Int
  created_at : Int
deriving Repr, DecidableEq

/-- The `users` table row: identity plus lazily provisioned tenant material. -/
structure User where
  id : String
  email : String
  password_hash : String
  gcs_bucket : Option String
  gcp_sa_email : Option String
  gcp_sa_key : Option String
deriving Repr, DecidableEq

/-- Outcome of one call into an external SDK (Docker, GCS, registry):
either a value or a raised exception. -/
inductive ExtResult (α : Type) where
  | ok (val : α)
  | err
deriving Repr, DecidableEq

/-! ## Reconciler: idle check (tasks/inactivity_checker.py) -/

/-- Default for the env var IDLE_THRESHOLD_MINUTES. -/
def IDLE_THRESHOLD_MINUTES : Int := 30

/-- SQL comparison `column < cutoff` on a nullable timestamp column.  In SQL
three-valued logic `NULL < cutoff` is NULL, which a WHERE clause does not
select, so a NULL column never satisfies the comparison. -/
def sqlLtNullable (v : Option Int) (cutoff : Int) : Bool :=
  match v with
  | none => false
  | some t => decide (t < cutoff)

/-- The WHERE clause of the idle query in check_inactive_projects:
status = 'running' AND last_connection_at < cutoff. -/
def idleWhere (cutoff : Int) (p : Project) : Bool :=
  p.status == "running" && sqlLtNullable p.last_connection_at cutoff

/-- Successful result dict of snapshot_manager.snapshot_project. -/
structure SnapOk where
  snapshot_image : String
  last_snapshot_at : Int
deriving Repr, DecidableEq

/-- Per-project body of the check_inactive_projects loop: transition the
selected project to stopped with the snapshot fields set, or to error when
the snapshot engine raises (the snapshot oracle returns none). -/
def applyAutoSnapshot (snap : String → Option SnapOk) (p : Project) : Project :=
  match snap p.id with
  | some r =>
      { p with status := "stopped"
             , snapshot_image := some r.snapshot_image
             , last_snapshot_at := some r.last_snapshot_at
             , last_backup_at := some r.last_snapshot_at }
  | none => { p with status := "error" }

/-- One project's fate on one reconciler tick: acted on iff selected by the
idle WHERE clause. -/
def inactivityStep (snap : String → Option SnapOk) (cutoff : Int) (p : Project) : Project :=
  if idleWhere cutoff p then applyAutoSnapshot snap p else p

/-- check_inactive_projects: select running projects whose last_connection_at
is strictly older than now minus the idle threshold and auto-snapshot each.
Errors in one project do not stop the others (the per-project try/except),
so the tick is a pointwise map over the table. -/
def check_inactive_projects (snap : String → Option SnapOk) (now : Int)
    (db : List Project) : List Project :=
  db.map (inactivityStep snap (now - 60 * IDLE_THRESHOLD_MINUTES))

/-- A running project that has never been connected to. -/
def neverConnectedProject : Project :=
  { id := "p1", user_id := "u1", name := "n", status := "running"
  , ssh_public_key := "pub", ssh_private_key := some "priv"
  , gcs_pfx := "p1/workspace", container_id := some "cid"
  , container_name := none, volume_name := none, ssh_host_port := some 30001
  , snapshot_image := none, last_snapshot_at := none, last_backup_at := none
  , last_active_at := none, last_connection_at := none, created_at := 0 }

/-- A running project whose last connection is strictly older than the
cutoff for now = 10000 (cutoff 10000 - 1800 = 8200). -/
def staleConnectionProject : Project :=
  { neverConnectedProject with id := "p2", last_connection_at := some 0 }

/-- C1 counterexample: on a tick at now = 10000 with a snapshot engine that
succeeds, the never-connected running project is left completely unchanged
(still running, never snapshotted), while the project whose
last_connection_at is strictly older than the cutoff is auto-snapshotted to
stopped.  This refutes the claim that a NULL last_connection_at is counted
as idle exactly like a strictly older timestamp: the SQL comparison
`last_connection_at < cutoff` never selects a NULL column. -/
theorem c1_null_not_idle_counterexample :
    check_inactive_projects (fun _ => some ⟨"img:latest", 5000⟩) 10000
        [neverConnectedProject, staleConnectionProject]
      = [neverConnectedProject,
         { staleConnectionProject with
             status := "stopped"
           , snapshot_image := some "img:latest"
           , last_snapshot_at := some 5000
           , last_backup_at := some 5000 }]
    ∧ neverConnectedProject.status = "running"
    ∧ neverConnectedProject.last_connection_at = none := by
  refine ⟨?_, rfl, rfl⟩
  decide

/-- C1 amended: the idle check counts a running project as idle only when
its last_connection_at is non-NULL and strictly older than now minus
IDLE_THRESHOLD; a project with NULL last_connection_at is never selected and
is left unchanged by the tick, and the tick is the pointwise application of
this per-project step. -/
theorem c1_idle_check_amended (snap : String → Option SnapOk) (now : Int) (p : Project) :
    (p.last_connection_at = none →
        inactivityStep snap (now - 60 * IDLE_THRESHOLD_MINUTES) p = p)
    ∧ (∀ t : Int, p.last_connection_at = some t → p.status = "running" →
        t < now - 60 * IDLE_THRESHOLD_MINUTES →
        inactivityStep snap (now - 60 * IDLE_THRESHOLD_MINUTES) p
          = applyAutoSnapshot snap p)
    ∧ (∀ db : List Project, p ∈ db →
        check_inactive_projects snap now db
          = db.map (inactivityStep snap (now - 60 * IDLE_THRESHOLD_MINUTES))) := by
  refine ⟨?_, ?_, ?_⟩
  · intro hnone
    simp [inactivityStep, idleWhere, sqlLtNullable, hnone]
  · intro t ht hrun hlt
    simp [inactivityStep, idleWhere, sqlLtNullable, ht, hrun, hlt]
  · intro db _
    rfl

/-- C1 amended witness: the amended per-project facts evaluated at the two
concrete projects above. -/
theorem c1_idle_check_amended_witness :
    inactivityStep (fun _ => some ⟨"img:latest", 5000⟩) (10000 - 60 * IDLE_THRESHOLD_MINUTES)
        neverConnectedProject = neverConnectedProject
    ∧ inactivityStep (fun _ => some ⟨"img:latest", 5000⟩) (10000 - 60 * IDLE_THRESHOLD_MINUTES)
        staleConnectionProject
        = applyAutoSnapshot (fun _ => some ⟨"img:latest", 5000⟩) staleConnectionProject := by
  constructor
  · exact (c1_idle_check_amended (fun _ => some ⟨"img:latest", 5000⟩) 10000
      neverConnectedProject).1 rfl
  · exact (c1_idle_check_amended (fun _ => some ⟨"img:latest", 5000⟩) 10000
      staleConnectionProject).2.1 0 rfl rfl (by decide)

/-! ## Tenant provisioner and project creation (services/project_service.py) -/

/-- Outcomes of the external calls made by _ensure_user_gcp_resources.
make_bucket_name lives outside this tree, so the chosen bucket name is part
of the oracle. -/
structure TenantOracle where
  bucketName : String
  createBucket : ExtResult Unit
  createServiceAccount : ExtResult String
  grantBucketIam : ExtResult Unit
  createSaKey : ExtResult String

/-- _ensure_user_gcp_resources: short-circuit when the SA key is set;
otherwise run bucket, service-account plus IAM grant, and key steps, each
committed immediately.  Result: ok with the final user row, or error with
the user row as committed at the failure point (the exception propagates to
the caller). -/
def ensure_user_gcp_resources (o : TenantOracle) (u : User) : Except User User :=
  if u.gcp_sa_key.isSome then Except.ok u else
  let afterBucket : Except User User :=
    match u.gcs_bucket with
    | some _ => Except.ok u
    | none =>
      match o.createBucket with
      | .ok _ => Except.ok { u with gcs_bucket := some o.bucketName }
      | .err => Except.error u
  match afterBucket with
  | .error u1 => Except.error u1
  | .ok u1 =>
    let afterSa : Except User User :=
      match u1.gcp_sa_email with
      | some _ => Except.ok u1
      | none =>
        match o.createServiceAccount with
        | .err => Except.error u1
        | .ok email =>
          let u2 := { u1 with gcp_sa_email := some email }
          match o.grantBucketIam with
          | .ok _ => Except.ok u2
          | .err => Except.error u2
    match afterSa with
    | .error u2 => Except.error u2
    | .ok u2 =>
      match u2.gcp_sa_key with
      | some _ => Except.ok u2
      | none =>
        match o.createSaKey with
        | .ok key => Except.ok { u2 with gcp_sa_key := some key }
        | .err => Except.error u2

/-- The externally visible steps of create_project, in the order the code
performs them. -/
inductive CreateEvent where
  | ensureTenant
  | persistCreating (pid : String)
  | createContainer (pid : String)
  | connectProxy (pid : String)
  | commitRunning (pid : String)
  | cleanupResources (pid : String)
  | commitError (pid : String)
deriving Repr, DecidableEq

/-- Outcomes of the external calls made by create_project after the tenant
step. -/
structure CreateOracle where
  tenant : TenantOracle
  createContainer : ExtResult (String × Nat)
  connectProxy : ExtResult Unit
  commitRunning : ExtResult Unit

/-- Result of one run of create_project: the event trace, the final user
row, the final projects table, and the returned project (none when the
operation raised, which the route surfaces as a 500). -/
structure CreateRun where
  events : List CreateEvent
  user : User
  projects : List Project
  result : Option Project
deriving Repr

/-- The fresh project row inserted by create_project with status creating. -/
def newCreatingProject (pid uid nm pub priv : String) : Project :=
  { id := pid, user_id := uid, name := nm, status := "creating"
  , ssh_public_key := pub, ssh_private_key := some priv
  , gcs_pfx := pid ++ "/workspace"
  , container_id := none, container_name := none, volume_name := none
  , ssh_host_port := none, snapshot_image := none, last_snapshot_at := none
  , last_backup_at := none, last_active_at := none, last_connection_at := none
  , created_at := 0 }

/-- create_project: fetch the user, ensure tenant resources, then insert the
row with status creating, create the container, connect the proxy, and
commit the running row.  Any failure after the insert runs
_cleanup_failed_create (best-effort Docker cleanup, then commit the row with
status error) and re-raises. -/
def create_project (o : CreateOracle) (pid nm pub priv : String)
    (u : User) (db : List Project) : CreateRun :=
  match ensure_user_gcp_resources o.tenant u with
  | .error u1 =>
      { events := [.ensureTenant], user := u1, projects := db, result := none }
  | .ok u1 =>
    let project := newCreatingProject pid u.id nm pub priv
    match o.createContainer with
    | .err =>
        { events := [.ensureTenant, .persistCreating pid, .createContainer pid,
                     .cleanupResources pid, .commitError pid]
        , user := u1
        , projects := db ++ [{ project with status := "error" }]
        , result := none }
    | .ok (cid, port) =>
      match o.connectProxy with
      | .err =>
          { events := [.ensureTenant, .persistCreating pid, .createContainer pid,
                       .connectProxy pid, .cleanupResources pid, .commitError pid]
          , user := u1
          , projects := db ++ [{ project with status := "error" }]
          , result := none }
      | .ok _ =>
        let prun := { project with
            container_id := some cid
          , container_name := some ("sandbox-" ++ pid)
          , volume_name := some ("vol-" ++ pid)
          , ssh_host_port := some port
          , status := "running" }
        match o.commitRunning with
        | .err =>
            { events := [.ensureTenant, .persistCreating pid, .createContainer pid,
                         .connectProxy pid, .commitRunning pid,
                         .cleanupResources pid, .commitError pid]
            , user := u1
            , projects := db ++ [{ prun with status := "error" }]
            , result := none }
        | .ok _ =>
            { events := [.ensureTenant, .persistCreating pid, .createContainer pid,
                         .connectProxy pid, .commitRunning pid]
            , user := u1
            , projects := db ++ [prun]
            , result := some prun }

/-- A user with no tenant material yet. -/
def freshUser : User :=
  { id := "u1", email := "a@ex.com", password_hash := "h"
  , gcs_bucket := none, gcp_sa_email := none, gcp_sa_key := none }

/-- An oracle whose bucket-creation call fails and whose later calls would
succeed. -/
def bucketFailOracle : CreateOracle :=
  { tenant := { bucketName := "bkt", createBucket := .err
              , createServiceAccount := .ok "sa@test.iam"
              , grantBucketIam := .ok (), createSaKey := .ok "key" }
  , createContainer := .ok ("cid-123", 30001)
  , connectProxy := .ok (), commitRunning := .ok () }

/-- C2 counterexample: in a run where tenant provisioning fails (bucket
creation raises) on an empty projects table, create_project raises before
inserting anything: the projects table is still empty — no project row
exists — and the only event is the tenant step, so the row was not persisted
before ensure_tenant.  This refutes the claim that the project record is
persisted before ensure_tenant and that a row exists whenever tenant
provisioning fails. -/
theorem c2_persist_order_counterexample :
    (create_project bucketFailOracle "p1" "X" "pub" "priv" freshUser []).projects = []
    ∧ (create_project bucketFailOracle "p1" "X" "pub" "priv" freshUser []).events
        = [CreateEvent.ensureTenant]
    ∧ (create_project bucketFailOracle "p1" "X" "pub" "priv" freshUser []).result = none := by
  refine ⟨rfl, rfl, rfl⟩

/-- C2 amended: create_project calls ensure_tenant(user) before persisting
the project record; consequently, in every run in which tenant provisioning
fails, the projects table is unchanged — no project row exists — the
operation raises (no project is returned), and no persist event occurred. -/
theorem c2_tenant_before_persist_amended (o : CreateOracle) (pid nm pub priv : String)
    (u u1 : User) (db : List Project)
    (hfail : ensure_user_gcp_resources o.tenant u = Except.error u1) :
    (create_project o pid nm pub priv u db).projects = db
    ∧ (create_project o pid nm pub priv u db).events = [CreateEvent.ensureTenant]
    ∧ (create_project o pid nm pub priv u db).result = none := by
  refine ⟨?_, ?_, ?_⟩ <;> simp [create_project, hfail]

/-- C2 amended witness: the amended theorem applied to the concrete failing
run above. -/
theorem c2_tenant_before_persist_amended_witness :
    (create_project bucketFailOracle "p1" "X" "pub" "priv" freshUser []).projects = ([] : List Project)
    ∧ (create_project bucketFailOracle "p1" "X" "pub" "priv" freshUser []).events
        = [CreateEvent.ensureTenant]
    ∧ (create_project bucketFailOracle "p1" "X" "pub" "priv" freshUser []).result = none :=
  c2_tenant_before_persist_amended bucketFailOracle "p1" "X" "pub" "priv"
    freshUser freshUser [] rfl

/-- C7: whenever create_project fails after the row with status creating was
persisted — container creation fails, proxy attachment fails, or the final
running commit fails — the run attempts Docker cleanup of the project's
resources, commits the project row with status error, raises (no project
returned), and leaves the owning user's tenant material exactly as the
tenant-provisioning step left it (the failure path never touches the user
row). -/
theorem c7_create_failure_cleanup (o : CreateOracle) (pid nm pub priv : String)
    (u u1 : User) (db : List Project)
    (hok : ensure_user_gcp_resources o.tenant u = Except.ok u1)
    (hfail : o.createContainer = ExtResult.err ∨ o.connectProxy = ExtResult.err
      ∨ o.commitRunning = ExtResult.err) :
    (create_project o pid nm pub priv u db).result = none
    ∧ CreateEvent.cleanupResources pid ∈ (create_project o pid nm pub priv u db).events
    ∧ CreateEvent.commitError pid ∈ (create_project o pid nm pub priv u db).events
    ∧ (∃ perr : Project, (create_project o pid nm pub priv u db).projects = db ++ [perr]
        ∧ perr.status = "error" ∧ perr.id = pid)
    ∧ (create_project o pid nm pub priv u db).user = u1 := by
  rcases hc : o.createContainer with cidport | _
  · rcases hp : o.connectProxy with _ | _
    · rcases hr : o.commitRunning with _ | _
      · rcases hfail with h | h | h
        · rw [hc] at h; exact absurd h (by simp)
        · rw [hp] at h; exact absurd h (by simp)
        · rw [hr] at h; exact absurd h (by simp)
      · rcases cidport with ⟨cid, port⟩
        simp only [create_project, hok, hc, hp, hr]
        refine ⟨trivial, ?_, ?_, ⟨_, rfl, rfl, rfl⟩, trivial⟩ <;> simp
    · rcases cidport with ⟨cid, port⟩
      simp only [create_project, hok, hc, hp]
      refine ⟨trivial, ?_, ?_, ⟨_, rfl, rfl, rfl⟩, trivial⟩ <;> simp
  · simp only [create_project, hok, hc]
    refine ⟨trivial, ?_, ?_, ⟨_, rfl, rfl, rfl⟩, trivial⟩ <;> simp

/-- An oracle whose tenant steps succeed but whose container creation
fails. -/
def containerFailOracle : CreateOracle :=
  { tenant := { bucketName := "bkt", createBucket := .ok ()
              , createServiceAccount := .ok "sa@test.iam"
              , grantBucketIam := .ok (), createSaKey := .ok "key" }
  , createContainer := .err
  , connectProxy := .ok (), commitRunning := .ok () }

/-- The user row as committed after successful tenant provisioning of
freshUser by containerFailOracle. -/
def provisionedUser : User :=
  { freshUser with
      gcs_bucket := some "bkt"
    , gcp_sa_email := some "sa@test.iam"
    , gcp_sa_key := some "key" }

/-- C7 witness: the theorem applied to a concrete run whose container
creation fails. -/
theorem c7_create_failure_cleanup_witness :
    (create_project containerFailOracle "p1" "X" "pub" "priv" freshUser []).result = none
    ∧ CreateEvent.cleanupResources "p1"
        ∈ (create_project containerFailOracle "p1" "X" "pub" "priv" freshUser []).events
    ∧ CreateEvent.commitError "p1"
        ∈ (create_project containerFailOracle "p1" "X" "pub" "priv" freshUser []).events
    ∧ (∃ perr : Project,
        (create_project containerFailOracle "p1" "X" "pub" "priv" freshUser []).projects
          = [] ++ [perr]
        ∧ perr.status = "error" ∧ perr.id = "p1")
    ∧ (create_project containerFailOracle "p1" "X" "pub" "priv" freshUser []).user
        = provisionedUser :=
  c7_create_failure_cleanup containerFailOracle "p1" "X" "pub" "priv"
    freshUser provisionedUser [] rfl (Or.inl rfl)

/-! ## Project routes and lifecycle services (routes/projects.py) -/

/-- HTTP response kinds the project routes produce.  forbidden (403) is
included so that its absence is expressible: no route below ever returns
it. -/
inductive Resp (α : Type) where
  | ok (val : α)
  | notFound (detail : String)
  | serverError
  | forbidden
deriving Repr, DecidableEq

/-- _get_owned_project: SELECT ... WHERE id = pid AND user_id = uid. -/
def get_owned_project (db : List Project) (pid uid : String) : Option Project :=
  db.find? (fun p => p.id == pid && p.user_id == uid)

/-- Write back the mutated ORM row (keyed by primary key). -/
def updateById (db : List Project) (pid : String) (p2 : Project) : List Project :=
  db.map (fun q => if q.id == pid then p2 else q)

/-- DELETE of the row keyed by primary key. -/
def eraseId (db : List Project) (pid : String) : List Project :=
  db.filter (fun q => !(q.id == pid))

/-- The ProjectDetail response model (models/schemas.py). -/
structure ProjectDetail where
  id : String
  name : String
  status : String
  created_at : Int
  last_active_at : Option Int
  terminal_url : Option String
  ssh_host : Option String
  ssh_port : Option Nat
  ssh_user : String
  ssh_private_key : Option String
  last_backup_at : Option Int
  last_snapshot_at : Option Int
deriving Repr, DecidableEq

/-- The advertised terminal URL for a project. -/
def terminal_url_for (hostIp proxyPort pid : String) : String :=
  "ws://" ++ hostIp ++ ":" ++ proxyPort ++ "/terminal/" ++ pid

/-- _project_detail: terminal_url, ssh_host and ssh_port are gated on
status == running; ssh_private_key is copied from the row unconditionally;
ssh_user defaults to agent in the schema. -/
def project_detail (hostIp proxyPort : String) (p : Project) : ProjectDetail :=
  { id := p.id, name := p.name, status := p.status, created_at := p.created_at
  , last_active_at := p.last_active_at
  , terminal_url :=
      if p.status == "running" then some (terminal_url_for hostIp proxyPort p.id) else none
  , ssh_host := if p.status == "running" then some hostIp else none
  , ssh_port := if p.status == "running" then p.ssh_host_port else none
  , ssh_user := "agent"
  , ssh_private_key := p.ssh_private_key
  , last_backup_at := p.last_backup_at
  , last_snapshot_at := p.last_snapshot_at }

/-- The BackupStatus response model. -/
structure BackupStatus where
  last_backup_at : Option Int
  snapshot_image : Option String
  last_snapshot_at : Option Int
deriving Repr, DecidableEq

/-- stop_project service with its route wrapper folded in: ownership miss
raises ValueError which the route maps to a 404; non-running status likewise;
a snapshot-engine failure marks the row error and surfaces as a 500. -/
def stop_project (snap : Option SnapOk) (pid uid : String) (db : List Project) :
    List Project × Resp Project :=
  match get_owned_project db pid uid with
  | none => (db, .notFound "Project not found")
  | some p =>
    if p.status != "running" then
      (db, .notFound ("Project is not running (status=" ++ p.status ++ ")"))
    else
      match snap with
      | some r =>
        let p2 := { p with
          status := "stopped",
          snapshot_image := some r.snapshot_image,
          last_snapshot_at := some r.last_snapshot_at,
          last_backup_at := some r.last_snapshot_at }
        (updateById db pid p2, .ok p2)
      | none =>
        let p2 := { p with status := "error" }
        (updateById db pid p2, .serverError)

/-- Outcomes of the external calls made by start_project. -/
structure RestoreOracle where
  restoreContainer : ExtResult String
  connectProxy : ExtResult Unit

/-- start_project with its route wrapper folded in: restore the container
(snapshot or base path), set the row running with a fresh last_active_at,
reconnect the proxy; a failure marks the row error and surfaces as a 500. -/
def start_project (o : RestoreOracle) (now : Int) (pid uid : String) (db : List Project) :
    List Project × Resp Project :=
  match get_owned_project db pid uid with
  | none => (db, .notFound "Project not found")
  | some p =>
    if p.status != "stopped" then
      (db, .notFound ("Project is not stopped (status=" ++ p.status ++ ")"))
    else
      match o.restoreContainer with
      | .err =>
          let p2 := { p with status := "error" }
          (updateById db pid p2, .serverError)
      | .ok cid =>
          let p2 := { p with
            container_id := some cid,
            status := "running",
            last_active_at := some now }
          match o.connectProxy with
          | .err =>
              let p3 := { p2 with status := "error" }
              (updateById db pid p3, .serverError)
          | .ok _ => (updateById db pid p2, .ok p2)

/-- Outcomes of the external teardown calls made by delete_project. -/
structure DeleteOracle where
  disconnectProxy : ExtResult Unit
  cleanupResources : ExtResult Unit
  deleteGcsPfx : ExtResult Unit
  deleteSnapshotImages : ExtResult Unit

/-- delete_project with its route wrapper folded in: fetch owned row (miss
is a 404), disconnect the proxy, clean up Docker resources, delete the GCS
prefix when the owner has a bucket, delete registry snapshot versions, then
remove the row.  None of the external steps is wrapped in a try/except in
the service, so an exception in any of them propagates to the route, which
returns a 500 without removing the row.  u is the caller's user row. -/
def delete_project (o : DeleteOracle) (pid uid : String) (u : User) (db : List Project) :
    List Project × Resp Unit :=
  match get_owned_project db pid uid with
  | none => (db, .notFound "Project not found")
  | some _ =>
    match o.disconnectProxy with
    | .err => (db, .serverError)
    | .ok _ =>
      match o.cleanupResources with
      | .err => (db, .serverError)
      | .ok _ =>
        match (match u.gcs_bucket with
               | none => ExtResult.ok ()
               | some _ => o.deleteGcsPfx) with
        | .err => (db, .serverError)
        | .ok _ =>
          match o.deleteSnapshotImages with
          | .err => (db, .serverError)
          | .ok _ => (eraseId db pid, .ok ())

/-- Map the payload of a successful response. -/
def mapResp (f : α → β) : Resp α → Resp β
  | .ok v => .ok (f v)
  | .notFound d => .notFound d
  | .serverError => .serverError
  | .forbidden => .forbidden

/-- GET /projects/id. -/
def get_project_route (hostIp proxyPort : String) (db : List Project) (pid uid : String) :
    Resp ProjectDetail :=
  match get_owned_project db pid uid with
  | none => .notFound "Project not found"
  | some p => .ok (project_detail hostIp proxyPort p)

/-- POST /projects/id/stop. -/
def stop_project_route (hostIp proxyPort : String) (snap : Option SnapOk)
    (pid uid : String) (db : List Project) : List Project × Resp ProjectDetail :=
  let r := stop_project snap pid uid db
  (r.1, mapResp (project_detail hostIp proxyPort) r.2)

/-- POST /projects/id/snapshot: the service delegates to stop_project. -/
def snapshot_project_route (hostIp proxyPort : String) (snap : Option SnapOk)
    (pid uid : String) (db : List Project) : List Project × Resp ProjectDetail :=
  stop_project_route hostIp proxyPort snap pid uid db

/-- POST /projects/id/start. -/
def start_project_route (hostIp proxyPort : String) (o : RestoreOracle) (now : Int)
    (pid uid : String) (db : List Project) : List Project × Resp ProjectDetail :=
  let r := start_project o now pid uid db
  (r.1, mapResp (project_detail hostIp proxyPort) r.2)

/-- POST /projects/id/restore: the route calls svc.start_project. -/
def restore_project_route (hostIp proxyPort : String) (o : RestoreOracle) (now : Int)
    (pid uid : String) (db : List Project) : List Project × Resp ProjectDetail :=
  start_project_route hostIp proxyPort o now pid uid db

/-- DELETE /projects/id. -/
def delete_project_route (o : DeleteOracle) (pid uid : String) (u : User)
    (db : List Project) : List Project × Resp Unit :=
  delete_project o pid uid u db

/-- GET /projects/id/backup-status. -/
def backup_status_route (db : List Project) (pid uid : String) : Resp BackupStatus :=
  match get_owned_project db pid uid with
  | none => .notFound "Project not found"
  | some p =>
      .ok { last_backup_at := p.last_backup_at
          , snapshot_image := p.snapshot_image
          , last_snapshot_at := p.last_snapshot_at }

/-- Every ExtResult Unit is a successful unit call or a raised exception. -/
theorem extResultUnit_cases (x : ExtResult Unit) :
    x = ExtResult.ok () ∨ x = ExtResult.err := by
  cases x with
  | ok v => cases v; exact Or.inl rfl
  | err => exact Or.inr rfl

/-- A user whose tenant material is fully provisioned. -/
def bucketUser : User :=
  { id := "u1", email := "a@ex.com", password_hash := "h"
  , gcs_bucket := some "bkt", gcp_sa_email := some "sa@test.iam"
  , gcp_sa_key := some "key" }

/-- A running project owned by bucketUser. -/
def deleteTargetProject : Project :=
  { id := "pd", user_id := "u1", name := "To Delete", status := "running"
  , ssh_public_key := "pub", ssh_private_key := some "priv"
  , gcs_pfx := "pd/workspace", container_id := some "cid"
  , container_name := none, volume_name := none, ssh_host_port := some 30001
  , snapshot_image := none, last_snapshot_at := none, last_backup_at := none
  , last_active_at := none, last_connection_at := none, created_at := 0 }

/-- C3 counterexample: the caller owns the project, the Docker resource
cleanup raises, and delete_project returns a 500 with the project row still
present — the teardown error did prevent the row from being removed.  This
refutes the claim that teardown errors never prevent row removal: the
service wraps none of its external steps in a try/except, so any exception
aborts the operation before the DELETE. -/
theorem c3_teardown_error_counterexample :
    delete_project
        { disconnectProxy := .ok (), cleanupResources := .err
        , deleteGcsPfx := .ok (), deleteSnapshotImages := .ok () }
        "pd" "u1" bucketUser [deleteTargetProject]
      = ([deleteTargetProject], Resp.serverError)
    ∧ deleteTargetProject.id = "pd" ∧ deleteTargetProject.user_id = "u1" := by
  refine ⟨?_, rfl, rfl⟩
  decide

/-- C3 amended: for a project owned by the caller, the DB row is removed
exactly when every external teardown step returns without raising; when any
teardown step raises (proxy disconnect, Docker cleanup, GCS prefix delete
while the owner has a bucket, or registry version delete), the exception
propagates as a 500 and the project row remains in the database. -/
theorem c3_delete_not_best_effort_amended (o : DeleteOracle) (pid uid : String)
    (u : User) (db : List Project)
    (howned : ∃ p ∈ db, p.id = pid ∧ p.user_id = uid) :
    (o.disconnectProxy = ExtResult.ok () → o.cleanupResources = ExtResult.ok () →
      (u.gcs_bucket = none ∨ o.deleteGcsPfx = ExtResult.ok ()) →
      o.deleteSnapshotImages = ExtResult.ok () →
      delete_project o pid uid u db = (eraseId db pid, Resp.ok ()))
    ∧ ((o.disconnectProxy = ExtResult.err ∨ o.cleanupResources = ExtResult.err
        ∨ ((∃ b, u.gcs_bucket = some b) ∧ o.deleteGcsPfx = ExtResult.err)
        ∨ o.deleteSnapshotImages = ExtResult.err) →
      delete_project o pid uid u db = (db, Resp.serverError)) := by
  obtain ⟨p, hp, hid, huid⟩ := howned
  have hsome : (get_owned_project db pid uid).isSome := by
    rw [get_owned_project, List.find?_isSome]
    exact ⟨p, hp, by simp [hid, huid]⟩
  obtain ⟨q, hq⟩ := Option.isSome_iff_exists.mp hsome
  constructor
  · intro h1 h2 h3 h4
    rcases h3 with hb | hg
    · simp [delete_project, hq, h1, h2, hb, h4]
    · cases hub : u.gcs_bucket <;> simp [delete_project, hq, h1, h2, hg, h4, hub]
  · intro hfail
    rcases extResultUnit_cases o.disconnectProxy with h1 | h1 <;>
      rcases extResultUnit_cases o.cleanupResources with h2 | h2 <;>
        rcases extResultUnit_cases o.deleteGcsPfx with h3 | h3 <;>
          rcases extResultUnit_cases o.deleteSnapshotImages with h4 | h4 <;>
            rcases hub : u.gcs_bucket with _ | b <;>
              simp_all [delete_project, hq]

/-- C3 amended witness: the amended theorem at the concrete failing run of
the counterexample, and at the run where every teardown step succeeds. -/
theorem c3_delete_not_best_effort_amended_witness :
    delete_project
        { disconnectProxy := .ok (), cleanupResources := .err
        , deleteGcsPfx := .ok (), deleteSnapshotImages := .ok () }
        "pd" "u1" bucketUser [deleteTargetProject]
      = ([deleteTargetProject], Resp.serverError)
    ∧ delete_project
        { disconnectProxy := .ok (), cleanupResources := .ok ()
        , deleteGcsPfx := .ok (), deleteSnapshotImages := .ok () }
        "pd" "u1" bucketUser [deleteTargetProject]
      = (eraseId [deleteTargetProject] "pd", Resp.ok ()) := by
  constructor
  · exact (c3_delete_not_best_effort_amended _ "pd" "u1" bucketUser [deleteTargetProject]
      ⟨deleteTargetProject, by simp, rfl, rfl⟩).2 (Or.inr (Or.inl rfl))
  · exact (c3_delete_not_best_effort_amended _ "pd" "u1" bucketUser [deleteTargetProject]
      ⟨deleteTargetProject, by simp, rfl, rfl⟩).1 rfl rfl (Or.inr rfl) rfl

/-- A stopped project that still carries its SSH private key. -/
def stoppedWithKey : Project :=
  { id := "p9", user_id := "u9", name := "n", status := "stopped"
  , ssh_public_key := "pub", ssh_private_key := some "priv"
  , gcs_pfx := "p9/workspace", container_id := none
  , container_name := none, volume_name := none, ssh_host_port := some 30001
  , snapshot_image := none, last_snapshot_at := none, last_backup_at := none
  , last_active_at := none, last_connection_at := none, created_at := 0 }

/-- C4 counterexample: for a stopped project, _project_detail nulls
terminal_url but still populates ssh_private_key with the stored key — the
key is copied unconditionally, not gated on status running.  This refutes
the claim that all SSH fields are null whenever the status is not
running. -/
theorem c4_ssh_key_ungated_counterexample :
    stoppedWithKey.status = "stopped"
    ∧ (project_detail "0.0.0.0" "9000" stoppedWithKey).ssh_private_key = some "priv"
    ∧ (project_detail "0.0.0.0" "9000" stoppedWithKey).terminal_url = none := by
  exact ⟨rfl, rfl, rfl⟩

/-- C4 amended: in every ProjectDetail response, terminal_url, ssh_host and
ssh_port are populated only when the project's status is running and are
null otherwise; ssh_private_key, however, always mirrors the stored key
regardless of status. -/
theorem c4_detail_gating_amended (hostIp proxyPort : String) (p : Project) :
    (p.status ≠ "running" →
      (project_detail hostIp proxyPort p).terminal_url = none
      ∧ (project_detail hostIp proxyPort p).ssh_host = none
      ∧ (project_detail hostIp proxyPort p).ssh_port = none)
    ∧ (p.status = "running" →
      (project_detail hostIp proxyPort p).terminal_url
        = some (terminal_url_for hostIp proxyPort p.id)
      ∧ (project_detail hostIp proxyPort p).ssh_host = some hostIp
      ∧ (project_detail hostIp proxyPort p).ssh_port = p.ssh_host_port)
    ∧ (project_detail hostIp proxyPort p).ssh_private_key = p.ssh_private_key := by
  refine ⟨?_, ?_, rfl⟩
  · intro hne
    have hb : (p.status == "running") = false := by
      simp [hne]
    simp [project_detail, hb]
  · intro he
    simp [project_detail, he]

/-- C4 amended witness: the amended theorem at the concrete stopped project
with a stored key. -/
theorem c4_detail_gating_amended_witness :
    (project_detail "0.0.0.0" "9000" stoppedWithKey).terminal_url = none
    ∧ (project_detail "0.0.0.0" "9000" stoppedWithKey).ssh_host = none
    ∧ (project_detail "0.0.0.0" "9000" stoppedWithKey).ssh_port = none
    ∧ (project_detail "0.0.0.0" "9000" stoppedWithKey).ssh_private_key
        = stoppedWithKey.ssh_private_key := by
  have h := c4_detail_gating_amended "0.0.0.0" "9000" stoppedWithKey
  have h1 := h.1 (by decide)
  exact ⟨h1.1, h1.2.1, h1.2.2, h.2.2⟩

/-- The ownership filter misses whenever no row in the table has both the
requested id and the caller as owner. -/
theorem get_owned_project_eq_none_of_foreign (db : List Project) (pid uid : String)
    (hno : ∀ q ∈ db, q.id = pid → q.user_id ≠ uid) :
    get_owned_project db pid uid = none := by
  rw [get_owned_project, List.find?_eq_none]
  intro q hq hmatch
  simp only [Bool.and_eq_true, beq_iff_eq] at hmatch
  exact hno q hq hmatch.1 hmatch.2

/-- The ownership filter also misses on the table with the id removed. -/
theorem get_owned_project_eq_none_of_erased (db : List Project) (pid uid : String) :
    get_owned_project (eraseId db pid) pid uid = none := by
  rw [get_owned_project, List.find?_eq_none]
  intro q hq hmatch
  rw [eraseId, List.mem_filter] at hq
  simp only [Bool.and_eq_true, beq_iff_eq] at hmatch
  simp [hmatch.1] at hq

/-- C5: for every project table and every caller who owns no project with
the requested id (in particular whenever the project exists but belongs to
another user), each project-level operation — get, stop, start, snapshot,
restore, delete, backup-status — returns exactly NotFound with the same
detail as for a nonexistent id, leaves the table unchanged, and the
response equals the response computed on the table with that id absent
entirely.  Since every response is the NotFound kind, none is the forbidden
kind, so the existence of a foreign project is unobservable. -/
theorem c5_foreign_project_unobservable
    (hostIp proxyPort : String) (snap : Option SnapOk) (ro : RestoreOracle)
    (dor : DeleteOracle) (u : User) (now : Int)
    (db : List Project) (pid uid : String)
    (hno : ∀ q ∈ db, q.id = pid → q.user_id ≠ uid) :
    get_project_route hostIp proxyPort db pid uid = Resp.notFound "Project not found"
    ∧ get_project_route hostIp proxyPort (eraseId db pid) pid uid
        = get_project_route hostIp proxyPort db pid uid
    ∧ stop_project_route hostIp proxyPort snap pid uid db
        = (db, Resp.notFound "Project not found")
    ∧ (stop_project_route hostIp proxyPort snap pid uid (eraseId db pid)).2
        = (stop_project_route hostIp proxyPort snap pid uid db).2
    ∧ snapshot_project_route hostIp proxyPort snap pid uid db
        = (db, Resp.notFound "Project not found")
    ∧ (snapshot_project_route hostIp proxyPort snap pid uid (eraseId db pid)).2
        = (snapshot_project_route hostIp proxyPort snap pid uid db).2
    ∧ start_project_route hostIp proxyPort ro now pid uid db
        = (db, Resp.notFound "Project not found")
    ∧ (start_project_route hostIp proxyPort ro now pid uid (eraseId db pid)).2
        = (start_project_route hostIp proxyPort ro now pid uid db).2
    ∧ restore_project_route hostIp proxyPort ro now pid uid db
        = (db, Resp.notFound "Project not found")
    ∧ (restore_project_route hostIp proxyPort ro now pid uid (eraseId db pid)).2
        = (restore_project_route hostIp proxyPort ro now pid uid db).2
    ∧ delete_project_route dor pid uid u db = (db, Resp.notFound "Project not found")
    ∧ (delete_project_route dor pid uid u (eraseId db pid)).2
        = (delete_project_route dor pid uid u db).2
    ∧ backup_status_route db pid uid = Resp.notFound "Project not found"
    ∧ backup_status_route (eraseId db pid) pid uid = backup_status_route db pid uid := by
  have h1 := get_owned_project_eq_none_of_foreign db pid uid hno
  have h2 := get_owned_project_eq_none_of_erased db pid uid
  refine ⟨?_, ?_, ?_, ?_, ?_, ?_, ?_, ?_, ?_, ?_, ?_, ?_, ?_, ?_⟩ <;>
    simp [get_project_route, stop_project_route, snapshot_project_route,
      start_project_route, restore_project_route, delete_project_route,
      backup_status_route, stop_project, start_project, delete_project,
      mapResp, h1, h2]

/-- A project owned by a user other than the caller u1. -/
def foreignProject : Project :=
  { id := "pf", user_id := "u2", name := "theirs", status := "running"
  , ssh_public_key := "pub", ssh_private_key := some "priv"
  , gcs_pfx := "pf/workspace", container_id := some "cid"
  , container_name := none, volume_name := none, ssh_host_port := some 30001
  , snapshot_image := none, last_snapshot_at := none, last_backup_at := none
  , last_active_at := none, last_connection_at := none, created_at := 0 }

/-- C5 witness: the theorem at a concrete one-row table owned by u2 with
caller u1, projecting the get, stop and delete clauses. -/
theorem c5_foreign_project_unobservable_witness :
    get_project_route "0.0.0.0" "9000" [foreignProject] "pf" "u1"
      = Resp.notFound "Project not found"
    ∧ stop_project_route "0.0.0.0" "9000" none "pf" "u1" [foreignProject]
      = ([foreignProject], Resp.notFound "Project not found")
    ∧ delete_project_route
        { disconnectProxy := .ok (), cleanupResources := .ok ()
        , deleteGcsPfx := .ok (), deleteSnapshotImages := .ok () }
        "pf" "u1" bucketUser [foreignProject]
      = ([foreignProject], Resp.notFound "Project not found") := by
  have h := c5_foreign_project_unobservable "0.0.0.0" "9000" none
    { restoreContainer := .ok "cid2", connectProxy := .ok () }
    { disconnectProxy := .ok (), cleanupResources := .ok ()
    , deleteGcsPfx := .ok (), deleteSnapshotImages := .ok () }
    bucketUser 0 [foreignProject] "pf" "u1"
    (by intro q hq h1; simp at hq; subst hq; decide)
  exact ⟨h.1, h.2.2.1, h.2.2.2.2.2.2.2.2.2.2.1⟩

/-! ## Auth: refresh-token rotation (routes/auth.py, services/auth_service.py) -/

/-- Default of REFRESH_TOKEN_EXPIRY_DAYS in auth_service.py. -/
def REFRESH_TOKEN_EXPIRY_DAYS : Int := 30

/-- The refresh_tokens table row: only the digest of the opaque token is
stored; rid is the primary key. -/
structure RefreshTokenRow where
  rid : Nat
  user_id : String
  token_hash : String
  expires_at : Int
deriving Repr, DecidableEq

/-- Responses of the auth routes.  serverError models the
MultipleResultsFound raised by scalar_one_or_none on a duplicate digest. -/
inductive AuthResp where
  | ok (access_token : String) (refresh_token : String)
  | unauthorized (detail : String)
  | serverError
deriving Repr, DecidableEq

/-- POST /auth/refresh: hash the presented token, load the unique matching
row (none: 401; several: error), delete an expired row with a 401,
otherwise delete the consumed row, add a row holding the digest of a fresh
token, and return the new pair.  hash embeds hash_refresh_token (SHA-256
hex digest), mkAccess embeds create_access_token, newToken the value drawn
by create_refresh_token, and newId the fresh primary key. -/
def refresh (hash mkAccess : String → String) (newToken : String) (newId : Nat)
    (now : Int) (req : String) (db : List RefreshTokenRow) :
    List RefreshTokenRow × AuthResp :=
  let h := hash req
  match db.filter (fun r => r.token_hash == h) with
  | [] => (db, .unauthorized "Invalid refresh token")
  | [rt] =>
    if rt.expires_at < now then
      (db.filter (fun r => !(r.rid == rt.rid)), .unauthorized "Refresh token expired")
    else
      let newRow : RefreshTokenRow :=
        { rid := newId, user_id := rt.user_id, token_hash := hash newToken
        , expires_at := now + REFRESH_TOKEN_EXPIRY_DAYS * 86400 }
      (db.filter (fun r => !(r.rid == rt.rid)) ++ [newRow],
       .ok (mkAccess rt.user_id) newToken)
  | _ => (db, .serverError)

/-- C6: on every successful POST /auth/refresh, the row matching the
presented token's digest is deleted — no row in the resulting table carries
that digest — a fresh pair is issued whose refresh half is the newly drawn
token, and presenting the consumed token again, at any later time and with
any later oracle values, is rejected with a 401 Invalid refresh token.  The
freshness hypothesis says the newly drawn token does not collide with the
consumed one under the digest. -/
theorem c6_refresh_rotation (hash mkAccess : String → String)
    (newToken : String) (newId : Nat) (now : Int) (t : String)
    (db db2 : List RefreshTokenRow) (a r : String)
    (hrun : refresh hash mkAccess newToken newId now t db = (db2, AuthResp.ok a r))
    (hfresh : hash newToken ≠ hash t) :
    r = newToken
    ∧ (∀ row ∈ db2, row.token_hash ≠ hash t)
    ∧ (∀ (nt2 : String) (nid2 : Nat) (now2 : Int),
        (refresh hash mkAccess nt2 nid2 now2 t db2).2
          = AuthResp.unauthorized "Invalid refresh token") := by
  rcases hm : db.filter (fun row => row.token_hash == hash t) with _ | ⟨rt, rest⟩
  · rw [refresh] at hrun
    simp only [hm] at hrun
    exact absurd (congrArg Prod.snd hrun) (by simp)
  · rcases rest with _ | ⟨rt2, rest2⟩
    · rw [refresh] at hrun
      simp only [hm] at hrun
      by_cases hexp : rt.expires_at < now
      · rw [if_pos hexp] at hrun
        exact absurd (congrArg Prod.snd hrun) (by simp)
      · rw [if_neg hexp] at hrun
        have hdb2 : db2 = db.filter (fun row => !(row.rid == rt.rid))
            ++ [{ rid := newId, user_id := rt.user_id, token_hash := hash newToken
                , expires_at := now + REFRESH_TOKEN_EXPIRY_DAYS * 86400 }] :=
          (congrArg Prod.fst hrun).symm
        have hr : r = newToken := by
          have := congrArg Prod.snd hrun
          simp only [AuthResp.ok.injEq] at this
          exact this.2.symm
        have hnomatch : ∀ row ∈ db2, row.token_hash ≠ hash t := by
          intro row hrow
          rw [hdb2, List.mem_append] at hrow
          rcases hrow with hrow | hrow
          · rw [List.mem_filter] at hrow
            intro hhash
            have hmem : row ∈ db.filter (fun x => x.token_hash == hash t) := by
              rw [List.mem_filter]
              exact ⟨hrow.1, by simp [hhash]⟩
            rw [hm] at hmem
            simp only [List.mem_singleton] at hmem
            subst hmem
            simp at hrow
          · simp only [List.mem_singleton] at hrow
            subst hrow
            exact hfresh
        refine ⟨hr, hnomatch, ?_⟩
        intro nt2 nid2 now2
        have hempty : db2.filter (fun row => row.token_hash == hash t) = [] := by
          rw [List.filter_eq_nil_iff]
          intro row hrow
          simp [hnomatch row hrow]
        rw [refresh]
        simp only [hempty]
    · rw [refresh] at hrun
      simp only [hm] at hrun
      exact absurd (congrArg Prod.snd hrun) (by simp)

/-- C6 witness: a concrete successful refresh (digest function: identity on
this two-token universe) whose consumed token is afterwards rejected. -/
theorem c6_refresh_rotation_witness :
    refresh (fun s => s) (fun u => u) "newtok" 2 50 "tok"
        [{ rid := 1, user_id := "u1", token_hash := "tok", expires_at := 100 }]
      = ([{ rid := 2, user_id := "u1", token_hash := "newtok"
          , expires_at := 50 + REFRESH_TOKEN_EXPIRY_DAYS * 86400 }],
         AuthResp.ok "u1" "newtok")
    ∧ (refresh (fun s => s) (fun u => u) "other" 3 60 "tok"
        [{ rid := 2, user_id := "u1", token_hash := "newtok"
         , expires_at := 50 + REFRESH_TOKEN_EXPIRY_DAYS * 86400 }]).2
      = AuthResp.unauthorized "Invalid refresh token" := by
  have hrun : refresh (fun s => s) (fun u => u) "newtok" 2 50 "tok"
      [{ rid := 1, user_id := "u1", token_hash := "tok", expires_at := 100 }]
    = ([{ rid := 2, user_id := "u1", token_hash := "newtok"
        , expires_at := 50 + REFRESH_TOKEN_EXPIRY_DAYS * 86400 }],
       AuthResp.ok "u1" "newtok") := by decide
  refine ⟨hrun, ?_⟩
  exact (c6_refresh_rotation (fun s => s) (fun u => u) "newtok" 2 50 "tok"
    _ _ "u1" "newtok" hrun (by decide)).2.2 "other" 3 60

/-! ## Container runtime adapter (services/docker_manager.py) -/

/-- MAX_PORT_RETRIES in docker_manager.py. -/
def MAX_PORT_RETRIES : Nat := 3

/-- The host's Docker resources, by name. -/
structure DockerState where
  networks : List String
  volumes : List String
  containers : List String
deriving Repr, DecidableEq

/-- create_network: client.networks.create for net-P. -/
def create_network (pid : String) (s : DockerState) : DockerState :=
  { s with networks := s.networks ++ ["net-" ++ pid] }

/-- delete_network: remove net-P, tolerating absence. -/
def delete_network (pid : String) (s : DockerState) : DockerState :=
  { s with networks := s.networks.filter (fun n => !(n == "net-" ++ pid)) }

/-- create_volume: client.volumes.create for vol-P. -/
def create_volume (pid : String) (s : DockerState) : DockerState :=
  { s with volumes := s.volumes ++ ["vol-" ++ pid] }

/-- delete_volume: remove vol-P, tolerating absence. -/
def delete_volume (pid : String) (s : DockerState) : DockerState :=
  { s with volumes := s.volumes.filter (fun v => !(v == "vol-" ++ pid)) }

/-- Outcome of one client.containers.run call: success with the container
id, the daemon's port-already-allocated APIError, or any other error. -/
inductive RunOutcome where
  | ok (containerId : String)
  | portAllocated
  | apiError
deriving Repr, DecidableEq

/-- Outcomes of the external calls create_container makes: whether network
and volume creation succeed, what find_free_port yields on each loop
iteration (none is the range-exhausted RuntimeError), what containers.run
does on each iteration, whether a failing run nevertheless left a created
container sandbox-P behind (runResidue), and whether the best-effort
rollback deletions of the volume and the network succeed — the source
wraps each in a try/except pass, so a failing rollback is swallowed and the
resource stays. -/
structure ContainerOracle where
  netOk : Bool
  volOk : Bool
  port : Nat → Option Nat
  run : Nat → RunOutcome
  runResidue : Bool
  rollbackVolOk : Bool
  rollbackNetOk : Bool

/-- The port-allocation retry loop of create_container: on each of up to
MAX_PORT_RETRIES iterations, pick a free port and run the container; a
port-already-allocated APIError is retried unless this was the last
attempt; any other error, and find_free_port exhaustion, propagates.  The
fuel argument starts at MAX_PORT_RETRIES, so the raise of last_error after
a fallen-through loop is unreachable. -/
def runAttempts (o : ContainerOracle) : Nat → Nat → Option (String × Nat)
  | _, 0 => none
  | attempt, fuel + 1 =>
    match o.port attempt with
    | none => none
    | some pt =>
      match o.run attempt with
      | .ok cid => some (cid, pt)
      | .apiError => none
      | .portAllocated =>
          if attempt < MAX_PORT_RETRIES - 1 then runAttempts o (attempt + 1) fuel
          else none

/-- The except branch of create_container: delete the volume, then the
network, but only those that were created (volume_created and
network_created flags), each deletion inside its own try/except pass — a
rollback deletion that itself raises is swallowed and the resource is left
behind. -/
def rollback (o : ContainerOracle) (pid : String)
    (volumeCreated networkCreated : Bool) (s : DockerState) : DockerState :=
  let s1 := if volumeCreated then
      (if o.rollbackVolOk then delete_volume pid s else s)
    else s
  if networkCreated then
    (if o.rollbackNetOk then delete_network pid s1 else s1)
  else s1

/-- create_container: reject a duplicate container name before touching any
resource, then create net-P, create vol-P, and run the retry loop.  On any
failure after the creations, run the best-effort rollback of whichever of
the volume and network was created and propagate the error (result none);
a container partially created by the failing containers.run is not removed
by the except branch — only the volume and network are. -/
def create_container (o : ContainerOracle) (pid : String) (s : DockerState) :
    DockerState × Option (String × Nat) :=
  if s.containers.contains ("sandbox-" ++ pid) then (s, none)
  else if o.netOk = false then (s, none)
  else
    let s1 := create_network pid s
    if o.volOk = false then (rollback o pid false true s1, none)
    else
      let s2 := create_volume pid s1
      match runAttempts o 0 MAX_PORT_RETRIES with
      | some (cid, pt) =>
          ({ s2 with containers := s2.containers ++ ["sandbox-" ++ pid] }, some (cid, pt))
      | none =>
          let s3 := if o.runResidue then
              { s2 with containers := s2.containers ++ ["sandbox-" ++ pid] }
            else s2
          (rollback o pid true true s3, none)

/-- Appending a fresh name and then filtering it away restores the list. -/
theorem filter_append_fresh (l : List String) (a : String) (ha : a ∉ l) :
    (l ++ [a]).filter (fun n => !(n == a)) = l := by
  rw [List.filter_append]
  have h1 : l.filter (fun n => !(n == a)) = l := by
    rw [List.filter_eq_self]
    intro b hb
    simp only [Bool.not_eq_eq_eq_not, Bool.not_true, beq_eq_false_iff_ne]
    intro hba
    exact ha (hba ▸ hb)
  have h2 : [a].filter (fun n => !(n == a)) = [] := by simp
  rw [h1, h2, List.append_nil]

/-- An oracle whose daemon rejects every chosen port as already allocated —
the internal retry is exhausted after MAX_PORT_RETRIES attempts — and whose
except-branch volume deletion then raises too (swallowed by the source). -/
def leakOracle : ContainerOracle :=
  { netOk := true, volOk := true
  , port := fun _ => some 30000
  , run := fun _ => RunOutcome.portAllocated
  , runResidue := false
  , rollbackVolOk := false
  , rollbackNetOk := true }

/-- C8 counterexample: on an empty host, a create_container run whose port
retries are exhausted and whose rollback delete_volume call itself raises
ends with vol-p1 still present: the try/except pass around the rollback
swallows the deletion failure, so the volume leaks even though the
operation propagates its error.  This refutes the claim that every failing
invocation deletes what it created so that no partially created resource
leaks. -/
theorem c8_rollback_leak_counterexample :
    (create_container leakOracle "p1"
        { networks := [], volumes := [], containers := [] }).2 = none
    ∧ (create_container leakOracle "p1"
        { networks := [], volumes := [], containers := [] }).1
      = { networks := [], volumes := ["vol-p1"], containers := [] } := by
  constructor
  · decide
  · decide

/-- C8 amended: for a fresh project identity, every failing invocation of
create_container — volume creation failing after the network was made, any
non-retryable run error, port-range exhaustion, or exhaustion of the
MAX_PORT_RETRIES port-allocation retries — runs the best-effort rollback of
whichever of the volume and network it created before propagating the
error; when both rollback deletions succeed and the failed run left no
partial container behind, the final Docker state equals the initial one,
but a rollback deletion that itself raises is swallowed and the resource
leaks: after a run-loop failure with a failing volume rollback, vol-P is
still present. -/
theorem c8_create_container_rollback_amended (o : ContainerOracle) (pid : String)
    (s : DockerState)
    (hnet : ("net-" ++ pid) ∉ s.networks) (hvol : ("vol-" ++ pid) ∉ s.volumes) :
    ((create_container o pid s).2 = none →
      o.rollbackVolOk = true → o.rollbackNetOk = true → o.runResidue = false →
      (create_container o pid s).1 = s)
    ∧ (("sandbox-" ++ pid) ∉ s.containers →
        o.netOk = true → o.volOk = true →
        runAttempts o 0 MAX_PORT_RETRIES = none →
        o.rollbackVolOk = false →
        ("vol-" ++ pid) ∈ (create_container o pid s).1.volumes
        ∧ (create_container o pid s).2 = none) := by
  constructor
  · intro hfail hrv hrn hres
    by_cases hdup : ("sandbox-" ++ pid) ∈ s.containers
    · simp [create_container, hdup]
    · cases hn : o.netOk with
      | false => simp [create_container, hdup, hn]
      | true =>
        cases hv : o.volOk with
        | false =>
            have hcc : create_container o pid s
                = (delete_network pid (create_network pid s), none) := by
              simp [create_container, rollback, hdup, hn, hv, hrn]
            rw [hcc]
            cases s with
            | mk nets vols conts =>
                simp only [delete_network, create_network]
                rw [filter_append_fresh nets ("net-" ++ pid) hnet]
        | true =>
            rcases hrun : runAttempts o 0 MAX_PORT_RETRIES with _ | ⟨cid, pt⟩
            · have hcc : create_container o pid s
                  = (delete_network pid (delete_volume pid
                      (create_volume pid (create_network pid s))), none) := by
                simp [create_container, rollback, hdup, hn, hv, hrun, hrv, hrn, hres]
              rw [hcc]
              cases s with
              | mk nets vols conts =>
                  simp only [delete_network, delete_volume, create_volume, create_network]
                  rw [filter_append_fresh nets ("net-" ++ pid) hnet,
                      filter_append_fresh vols ("vol-" ++ pid) hvol]
            · exfalso
              have hcc : (create_container o pid s).2 = some (cid, pt) := by
                simp [create_container, hdup, hn, hv, hrun]
              rw [hcc] at hfail
              exact Option.noConfusion hfail
  · intro hdup hn hv hrun hrv
    constructor
    · cases hres : o.runResidue <;> cases hrn : o.rollbackNetOk <;>
        simp [create_container, rollback, delete_network, delete_volume,
          create_volume, create_network, hdup, hn, hv, hrun, hrv, hres, hrn]
    · simp [create_container, hdup, hn, hv, hrun]

/-- C8 amended witness: the amended theorem at the leaking run of the
counterexample (second clause) and at the same exhausted-retries run with
both rollback deletions succeeding (first clause, state restored). -/
theorem c8_create_container_rollback_amended_witness :
    (("vol-" ++ "p1") ∈ (create_container leakOracle "p1"
        { networks := [], volumes := [], containers := [] }).1.volumes
      ∧ (create_container leakOracle "p1"
          { networks := [], volumes := [], containers := [] }).2 = none)
    ∧ (create_container
        { leakOracle with rollbackVolOk := true } "p1"
        { networks := [], volumes := [], containers := [] }).1
      = { networks := [], volumes := [], containers := [] } := by
  constructor
  · exact (c8_create_container_rollback_amended leakOracle "p1"
      { networks := [], volumes := [], containers := [] }
      (by decide) (by decide)).2 (by decide) rfl rfl (by decide) rfl
  · exact (c8_create_container_rollback_amended
      { leakOracle with rollbackVolOk := true } "p1"
      { networks := [], volumes := [], containers := [] }
      (by decide) (by decide)).1 (by decide) rfl rfl rfl

/-! ## Terminal gateway (terminal_proxy/proxy.py, services/container_lookup.py) -/

/-- Break a character list at the first occurrence of c: the part before,
and (when c occurs) the part after. -/
def breakAtChar (c : Char) : List Char → List Char × Option (List Char)
  | [] => ([], none)
  | x :: xs =>
    if x = c then ([], some xs)
    else
      let r := breakAtChar c xs
      (x :: r.1, r.2)

/-- Python str.split with a one-character separator: "a/b" gives two
fields, "" gives one empty field, adjacent separators give empty fields. -/
def splitChar (c : Char) : List Char → List (List Char)
  | [] => [[]]
  | x :: xs =>
    let r := splitChar c xs
    if x = c then [] :: r
    else
      match r with
      | [] => [[x]]
      | y :: ys => (x :: y) :: ys

/-- Split a URL into path and query at the first question mark
(urlparse). -/
def splitQuery (s : String) : String × String :=
  match breakAtChar '?' s.toList with
  | (p, none) => (String.mk p, "")
  | (p, some q) => (String.mk p, String.mk q)

/-- Python str.strip with a single character: drop all leading and trailing
occurrences. -/
def stripChar (c : Char) (s : String) : String :=
  String.mk (((s.toList.dropWhile (fun x => x = c)).reverse.dropWhile
    (fun x => x = c)).reverse)

/-- parse_qs restricted to what the gateway needs: split the query on
ampersands, split each field at its first equals sign, and drop fields with
no equals sign or a blank value (keep_blank_values is False).  Percent
escapes are not modelled; the tokens in play contain none. -/
def qsPairs (query : String) : List (String × String) :=
  (splitChar '&' query.toList).filterMap (fun field =>
    match breakAtChar '=' field with
    | (_, none) => none
    | (k, some v) =>
        if v.isEmpty then none else some (String.mk k, String.mk v))

/-- First value for a query key, as params.get(key, [None])[0]. -/
def qsFirst (query key : String) : Option String :=
  ((qsPairs query).find? (fun kv => kv.1 == key)).map (fun kv => kv.2)

/-- parse_ws_url: expect /terminal/{project_id}?token={jwt}; return
(None, None) on any shape violation, else the project id and the token when
present. -/
def parse_ws_url (path : String) : Option String × Option String :=
  let pq := splitQuery path
  match splitChar '/' (stripChar '/' pq.1).toList with
  | [seg0, seg1] =>
      if String.mk seg0 == "terminal" then (some (String.mk seg1), qsFirst pq.2 "token")
      else (none, none)
  | _ => (none, none)

/-- A container as the lookup sees it: docker status and the
network-to-IPAddress map of NetworkSettings. -/
structure ContainerInfo where
  status : String
  networks : List (String × String)
deriving Repr, DecidableEq

/-- The IPAddress entry for one network name. -/
def lookupNet (nets : List (String × String)) (nm : String) : Option String :=
  (nets.find? (fun kv => kv.1 == nm)).map (fun kv => kv.2)

/-- container_lookup.get_container_ip: none models a raised
ContainerNotRunning — container absent, not running, not attached to net-P,
or attached with an empty IP.  The side effect of reattaching the proxy to
the network is not observable in the result and is not modelled. -/
def get_container_ip (containers : String → Option ContainerInfo) (pid : String) :
    Option String :=
  match containers ("sandbox-" ++ pid) with
  | none => none
  | some c =>
    if c.status == "running" then
      match lookupNet c.networks ("net-" ++ pid) with
      | none => none
      | some ip => if ip == "" then none else some ip
    else none

/-- Outcome of the validate_token call against the project service. -/
inductive ValidateResult where
  | ok (userId : String)
  | unauthorized
deriving Repr, DecidableEq

/-- Outcome of dialing the in-container PTY server: connected, the
connection-closed-during-setup case the handler only logs, or any other
exception. -/
inductive DialResult where
  | ok
  | connectionClosed
  | failed
deriving Repr, DecidableEq

/-- How handle_connection ends: an explicit close with a code, a completed
relay, or the logged-only connection-closed-during-setup exit. -/
inductive ConnOutcome where
  | closed (code : Nat) (reason : String)
  | relayed
  | setupInterrupted
deriving Repr, DecidableEq

/-- handle_connection: parse the URL (4400 on shape violation or missing
token), validate the token against the project (4401 on failure), resolve
the container IP (4503 when ContainerNotRunning), dial the PTY server (4502
on failure), then relay. -/
def handle_connection (validate : String → String → ValidateResult)
    (containers : String → Option ContainerInfo) (dial : String → DialResult)
    (path : String) : ConnOutcome :=
  match parse_ws_url path with
  | (none, _) => .closed 4400 "Invalid path"
  | (some _, none) => .closed 4400 "Token required"
  | (some pid, some tok) =>
    match validate tok pid with
    | .unauthorized => .closed 4401 "Unauthorized"
    | .ok _ =>
      match get_container_ip containers pid with
      | none => .closed 4503 "Container not running"
      | some ip =>
        match dial ip with
        | .failed => .closed 4502 "Backend connection failed"
        | .connectionClosed => .setupInterrupted
        | .ok => .relayed

/-- The close code of an outcome, when one was sent. -/
def closeCode : ConnOutcome → Option Nat
  | .closed c _ => some c
  | _ => none

/-- C9: for every terminal-gateway connection, a URL that does not parse as
/terminal/{P} — or one whose query lacks a token — is closed with 4400; a
token failing validation against the project closes with 4401; a container
that exists but is not running, or is not attached to net-P, closes with
4503 (as does an absent container); and a failure to dial the in-container
PTY server closes with 4502. -/
theorem c9_gateway_close_codes (validate : String → String → ValidateResult)
    (containers : String → Option ContainerInfo) (dial : String → DialResult)
    (path : String) :
    ((parse_ws_url path).1 = none ∨ (parse_ws_url path).2 = none →
      closeCode (handle_connection validate containers dial path) = some 4400)
    ∧ (∀ pid tok, parse_ws_url path = (some pid, some tok) →
        validate tok pid = ValidateResult.unauthorized →
        closeCode (handle_connection validate containers dial path) = some 4401)
    ∧ (∀ pid tok u, parse_ws_url path = (some pid, some tok) →
        validate tok pid = ValidateResult.ok u →
        (containers ("sandbox-" ++ pid) = none
          ∨ ∃ c, containers ("sandbox-" ++ pid) = some c
              ∧ (c.status ≠ "running" ∨ lookupNet c.networks ("net-" ++ pid) = none)) →
        closeCode (handle_connection validate containers dial path) = some 4503)
    ∧ (∀ pid tok u ip, parse_ws_url path = (some pid, some tok) →
        validate tok pid = ValidateResult.ok u →
        get_container_ip containers pid = some ip →
        dial ip = DialResult.failed →
        closeCode (handle_connection validate containers dial path) = some 4502) := by
  refine ⟨?_, ?_, ?_, ?_⟩
  · intro h
    rcases hp : parse_ws_url path with ⟨pid?, tok?⟩
    rcases pid? with _ | pid
    · simp [handle_connection, hp, closeCode]
    · rcases tok? with _ | tok
      · simp [handle_connection, hp, closeCode]
      · rw [hp] at h
        rcases h with h | h <;> exact absurd h (by simp)
  · intro pid tok hp hv
    simp [handle_connection, hp, hv, closeCode]
  · intro pid tok u hp hv hc
    have hip : get_container_ip containers pid = none := by
      rcases hc with hc | ⟨c, hc, hbad⟩
      · simp [get_container_ip, hc]
      · rcases hbad with hbad | hbad
        · have hs : (c.status == "running") = false := by simp [hbad]
          simp [get_container_ip, hc, hs]
        · by_cases hs : c.status == "running" <;>
            simp [get_container_ip, hc, hs, hbad]
    simp [handle_connection, hp, hv, hip, closeCode]
  · intro pid tok u ip hp hv hip hd
    simp [handle_connection, hp, hv, hip, hd, closeCode]

/-- A container map with one running sandbox attached to its network. -/
def oneContainer : String → Option ContainerInfo := fun nm =>
  if nm == "sandbox-abc" then
    some { status := "running", networks := [("net-abc", "172.18.0.2")] }
  else none

/-- A container map with one stopped sandbox. -/
def oneStoppedContainer : String → Option ContainerInfo := fun nm =>
  if nm == "sandbox-abc" then
    some { status := "exited", networks := [("net-abc", "172.18.0.2")] }
  else none

/-- C9 witness: the theorem applied at concrete connections hitting each of
the four close codes. -/
theorem c9_gateway_close_codes_witness :
    closeCode (handle_connection (fun _ _ => ValidateResult.ok "u1") oneContainer
        (fun _ => DialResult.ok) "/bad") = some 4400
    ∧ closeCode (handle_connection (fun _ _ => ValidateResult.ok "u1") oneContainer
        (fun _ => DialResult.ok) "/terminal/abc") = some 4400
    ∧ closeCode (handle_connection (fun _ _ => ValidateResult.unauthorized) oneContainer
        (fun _ => DialResult.ok) "/terminal/abc?token=tok") = some 4401
    ∧ closeCode (handle_connection (fun _ _ => ValidateResult.ok "u1") oneStoppedContainer
        (fun _ => DialResult.ok) "/terminal/abc?token=tok") = some 4503
    ∧ closeCode (handle_connection (fun _ _ => ValidateResult.ok "u1") oneContainer
        (fun _ => DialResult.failed) "/terminal/abc?token=tok") = some 4502 := by
  refine ⟨?_, ?_, ?_, ?_, ?_⟩
  · exact (c9_gateway_close_codes _ _ _ "/bad").1 (Or.inl (by decide))
  · exact (c9_gateway_close_codes _ _ _ "/terminal/abc").1 (Or.inr (by decide))
  · exact (c9_gateway_close_codes _ _ _ "/terminal/abc?token=tok").2.1
      "abc" "tok" (by decide) rfl
  · exact (c9_gateway_close_codes _ _ _ "/terminal/abc?token=tok").2.2.1
      "abc" "tok" "u1" (by decide) rfl
      (Or.inr ⟨{ status := "exited", networks := [("net-abc", "172.18.0.2")] },
        by decide, Or.inl (by decide)⟩)
  · exact (c9_gateway_close_codes _ _ _ "/terminal/abc?token=tok").2.2.2
      "abc" "tok" "u1" "172.18.0.2" (by decide) rfl (by decide) rfl

/-! ## Audit logger (terminal_proxy/services/audit.py) -/

/-- The U+FFFD replacement character. -/
def replChar : Char := Char.ofNat 0xFFFD

/-- A UTF-8 continuation byte. -/
def isCont (b : Nat) : Bool := 0x80 ≤ b && b ≤ 0xBF

/-- Admissible first continuation byte after a three-byte lead (E0 narrows
to A0..BF, ED to 80..9F so surrogates are rejected). -/
def cont3First (b b1 : Nat) : Bool :=
  if b = 0xE0 then 0xA0 ≤ b1 && b1 ≤ 0xBF
  else if b = 0xED then 0x80 ≤ b1 && b1 ≤ 0x9F
  else isCont b1

/-- Admissible first continuation byte after a four-byte lead (F0 narrows
to 90..BF, F4 to 80..8F so values stay at most U+10FFFF). -/
def cont4First (b b1 : Nat) : Bool :=
  if b = 0xF0 then 0x90 ≤ b1 && b1 ≤ 0xBF
  else if b = 0xF4 then 0x80 ≤ b1 && b1 ≤ 0x8F
  else isCont b1

/-- Fueled body of the replacement decoder: consumes one to four bytes per
step; the fuel only bounds the number of steps and any fuel at least the
list's length is enough. -/
def utf8DecodeAux : Nat → List Nat → List Char
  | 0, _ => []
  | _ + 1, [] => []
  | fuel + 1, b :: rest =>
    if b < 0x80 then Char.ofNat b :: utf8DecodeAux fuel rest
    else if b < 0xC2 then replChar :: utf8DecodeAux fuel rest
    else if b < 0xE0 then
      match rest with
      | [] => [replChar]
      | b1 :: rest1 =>
        if isCont b1 then
          Char.ofNat ((b - 0xC0) * 0x40 + (b1 - 0x80)) :: utf8DecodeAux fuel rest1
        else replChar :: utf8DecodeAux fuel rest
    else if b < 0xF0 then
      match rest with
      | [] => [replChar]
      | b1 :: rest1 =>
        if cont3First b b1 then
          match rest1 with
          | [] => [replChar]
          | b2 :: rest2 =>
            if isCont b2 then
              Char.ofNat ((b - 0xE0) * 0x1000 + (b1 - 0x80) * 0x40 + (b2 - 0x80))
                :: utf8DecodeAux fuel rest2
            else replChar :: utf8DecodeAux fuel rest1
        else replChar :: utf8DecodeAux fuel rest
    else if b < 0xF5 then
      match rest with
      | [] => [replChar]
      | b1 :: rest1 =>
        if cont4First b b1 then
          match rest1 with
          | [] => [replChar]
          | b2 :: rest2 =>
            if isCont b2 then
              match rest2 with
              | [] => [replChar]
              | b3 :: rest3 =>
                if isCont b3 then
                  Char.ofNat ((b - 0xF0) * 0x40000 + (b1 - 0x80) * 0x1000
                      + (b2 - 0x80) * 0x40 + (b3 - 0x80))
                    :: utf8DecodeAux fuel rest3
                else replChar :: utf8DecodeAux fuel rest2
            else replChar :: utf8DecodeAux fuel rest1
        else replChar :: utf8DecodeAux fuel rest
    else replChar :: utf8DecodeAux fuel rest

/-- bytes.decode with utf-8 and errors=replace: standard UTF-8 decoding
where each maximal invalid or truncated subpart yields one U+FFFD, total on
every byte sequence. -/
def utf8DecodeReplace (bs : List Nat) : List Char :=
  utf8DecodeAux bs.length bs

/-- A websocket message from the client: text frames arrive as str, binary
frames as bytes. -/
inductive WsMessage where
  | text (s : String)
  | binary (bytes : List Nat)
deriving Repr, DecidableEq

/-- The content the logger records: text unchanged, bytes decoded with
replacement. -/
def decodedContent : WsMessage → String
  | .text s => s
  | .binary bs => String.mk (utf8DecodeReplace bs)

/-- One audit entry as built by AuditLogger.log_input. -/
structure AuditEntry where
  event : String
  project_id : String
  user_id : String
  timestamp : Int
  content : String
deriving Repr, DecidableEq

/-- The AuditLogger instance state. -/
structure AuditLogger where
  project_id : String
  user_id : String
  entries : List AuditEntry
deriving Repr, DecidableEq

/-- AuditLogger.log_input: decode bytes with replacement (text passes
through), build the entry, and append it.  now embeds time.time(). -/
def log_input (a : AuditLogger) (message : WsMessage) (now : Int) : AuditLogger :=
  { a with entries := a.entries ++
      [{ event := "terminal_input", project_id := a.project_id
       , user_id := a.user_id, timestamp := now
       , content := decodedContent message }] }

/-- Sanity: ASCII decodes to itself. -/
theorem utf8_sanity_ascii :
    utf8DecodeReplace [72, 105] = [Char.ofNat 72, Char.ofNat 105] := rfl

/-- Sanity: a stray invalid byte becomes one replacement character and
decoding continues. -/
theorem utf8_sanity_invalid_byte :
    utf8DecodeReplace [0xFF, 0x41] = [replChar, Char.ofNat 0x41] := rfl

/-- Sanity: a truncated multi-byte sequence at the end is one replacement
character. -/
theorem utf8_sanity_truncated :
    utf8DecodeReplace [0xE2, 0x82] = [replChar] := rfl

/-- Sanity: a valid two-byte sequence decodes to its code point. -/
theorem utf8_sanity_two_byte :
    utf8DecodeReplace [0xC3, 0xA9] = [Char.ofNat 0xE9] := rfl

/-- Sanity: a lead byte followed by a non-continuation keeps the follower. -/
theorem utf8_sanity_bad_continuation :
    utf8DecodeReplace [0xC2, 0x41] = [replChar, Char.ofNat 0x41] := rfl

/-- C10: AuditLogger.log_input is total over arbitrary client messages —
text or bytes, including byte sequences that are not valid UTF-8, which
decode with replacement characters — and appends exactly one entry carrying
event terminal_input, the logger's project id and user id, the timestamp,
and the decoded content, leaving everything else unchanged; it never raises,
so malformed binary input cannot crash the audited relay direction. -/
theorem c10_log_input_total_append (a : AuditLogger) (message : WsMessage) (now : Int) :
    (log_input a message now).entries
      = a.entries ++
        [{ event := "terminal_input", project_id := a.project_id
         , user_id := a.user_id, timestamp := now
         , content := decodedContent message }]
    ∧ (log_input a message now).entries.length = a.entries.length + 1
    ∧ (log_input a message now).project_id = a.project_id
    ∧ (log_input a message now).user_id = a.user_id := by
  refine ⟨rfl, ?_, rfl, rfl⟩
  simp [log_input]

end Pomodex
